import Mathlib

/-!
Shallow embedding of `streamlit_app.py` (FractureReductionQuestionnaire):
the form-flow controller (page state machine over home/ranking/points/
likert/results held in `st.session_state`), the step validators
`validate_ranks` and `validate_points`, the snapshot composition in
`show_likert`, and the CSV submission store
(`save_submission_to_csv` / the `csv.DictReader` loop in `show_admin`).

Modelling conventions:
* `st.session_state` widget entries are functions `String → Option ℤ`
  keyed by parameter label (the `key_for` renaming is injective on the
  five labels, so keying by label directly is faithful); a missing key
  is `none`, matching `dict.get` returning `None`.
* `uuid.uuid4()` and `datetime.utcnow()` are modelled as explicit
  parameters `sid`, `ts` of the operations that call them.
* A raised-and-uncaught Python exception leaves the modelled state
  unchanged; a caught one takes the code's `except` branch.
* Python `int()` on a number truncates toward zero and raises on
  non-numeric input; CSV cells are strings (`csv` stringifies on write
  and performs no conversion on read).
-/

namespace FRQ

/-- The fixed parameter list (`PARAMETERS`, streamlit_app.py lines 14-20). -/
def PARAMETERS : List String :=
  ["Time taken (total procedure)",
   "Accuracy of fragment positioning (translational error vs reference)",
   "Accuracy of fragment rotation (rotational error vs reference)",
   "Number of moves (how many fragment manipulations)",
   "Order of fragment movements (efficient sequencing)"]

/-- A value handed to `validate_points`: either a number (modelled as a
rational, covering Python ints and floats) or a value on which `int()`
raises. -/
inductive PVal where
  | num (q : ℚ)
  | nonnum
deriving DecidableEq

/-- Python `int()` applied to a `PVal`: truncation toward zero on a
number (toward-zero division of the reduced numerator by the
denominator), failure (exception) otherwise. -/
def pyInt : PVal → Option ℤ
  | .num q => some (q.num.tdiv q.den)
  | .nonnum => none

/-- `validate_points` (lines 99-107): converts every value with `int()`
(error message if any conversion raises), then requires the sum of the
converted values to be exactly 100, reporting the computed sum on
mismatch. -/
def validate_points (points : List PVal) : Option String :=
  match points.mapM pyInt with
  | none => some "Error in points: use valid integers."
  | some pints =>
    if pints.sum ≠ 100 then
      some ("The sum of points must be 100 (now: " ++ toString pints.sum ++ ").")
    else
      none

/-- `validate_ranks` (lines 90-97): requires no `None` entry, pairwise
distinct entries (`len(set(ranks)) == len(ranks)`), and the set of
entries equal to `{1,2,3,4,5}`. -/
def validate_ranks (ranks : List (Option ℤ)) : Option String :=
  if ranks.any fun v => v.isNone then
    some "Please assign all rankings (1-5)."
  else if ranks.toFinset.card ≠ ranks.length then
    some "Rankings must be unique: assign 1..5 without repetitions."
  else if ranks.toFinset ≠ ({some 1, some 2, some 3, some 4, some 5} : Finset (Option ℤ)) then
    some "Rankings must cover exactly the values 1,2,3,4,5."
  else
    none

/-- Python 3 `round()` to an integer: nearest, halves to even, computed
on the reduced numerator and denominator (`fl` is the floor, `r` the
nonnegative remainder, and `2r` against the denominator decides the
direction). Used only to state the specification's rounding-based
acceptance condition, for comparison with `validate_points`. -/
def pyRound (q : ℚ) : ℤ :=
  let fl := q.num.fdiv q.den
  let r := q.num - fl * q.den
  if 2 * r < (q.den : ℤ) then fl
  else if (q.den : ℤ) < 2 * r then fl + 1
  else if Even fl then fl else fl + 1

/-- The five pages of the router (lines 286-300). -/
inductive Page where
  | home | ranking | points | likert | results
deriving DecidableEq

/-- One entry of the `results` list built in `show_likert`
(lines 221-229): the per-parameter finalized answers, before the store
adds `submission_id` and `timestamp_utc`. -/
structure ResultEntry where
  parameter_label : String
  rank : ℤ
  points : ℤ
  likert : ℤ
deriving DecidableEq

/-- The modelled participant session (`st.session_state`): current page,
`submitted` flag, last error message, the three widget stores, the two
frozen snapshots `saved_ranks` / `saved_points`, and the stored
`results` batch. -/
structure Session where
  page : Page
  submitted : Bool
  error : String
  rank : String → Option ℤ
  points : String → Option ℤ
  likert : String → Option ℤ
  saved_ranks : Option (String → ℤ)
  saved_points : Option (String → ℤ)
  results : Option (List ResultEntry)

/-- Session-state initialization (lines 29-46): `page = home`,
`submitted = False`, empty error, widget defaults rank 1 / points 0 /
likert 4 for every parameter, no snapshots, no results. -/
def initSession : Session where
  page := .home
  submitted := false
  error := ""
  rank := fun p => if p ∈ PARAMETERS then some 1 else none
  points := fun p => if p ∈ PARAMETERS then some 0 else none
  likert := fun p => if p ∈ PARAMETERS then some 4 else none
  saved_ranks := none
  saved_points := none
  results := none

/-- The CSV header row (`fieldnames`, line 53). -/
def FIELDNAMES : List String :=
  ["submission_id", "timestamp_utc", "parameter_label", "rank", "points", "likert"]

/-- `save_submission_to_csv` (lines 49-68): the CSV file is a list of
rows (lists of cells); a header row is written first iff the file is
missing or empty; then one row per result, every row of the batch using
the single `submission_id` and the single timestamp generated once per
call (modelled as the parameters `sid`, `ts`); every cell is the `str`
rendering of the written value. -/
def save_submission_to_csv (file : List (List String)) (results : List ResultEntry)
    (sid ts : String) : List (List String) :=
  file ++ (if file.isEmpty then [FIELDNAMES] else []) ++
    results.map fun r =>
      [sid, ts, r.parameter_label, toString r.rank, toString r.points, toString r.likert]

/-- A Python value as the admin read path sees it: `csv.DictReader`
yields strings, while the records were written from integers; this type
lets the two be compared. -/
inductive PyVal where
  | int (n : ℤ)
  | str (s : String)
deriving DecidableEq

/-- One record as produced by the read loop of `show_admin`
(lines 263-267): a dict of the six fields. -/
structure ReadRecord where
  submission_id : PyVal
  timestamp_utc : PyVal
  parameter_label : PyVal
  rank : PyVal
  points : PyVal
  likert : PyVal
deriving DecidableEq

/-- The read loop of `show_admin` (lines 263-267): `csv.DictReader`
consumes the header row and yields every remaining row as a dict of
strings — no field is converted back to an integer. -/
def readAll (file : List (List String)) : List ReadRecord :=
  match file with
  | [] => []
  | _ :: rows => rows.map fun row =>
      { submission_id := .str (row.getD 0 "")
        timestamp_utc := .str (row.getD 1 "")
        parameter_label := .str (row.getD 2 "")
        rank := .str (row.getD 3 "")
        points := .str (row.getD 4 "")
        likert := .str (row.getD 5 "") }

/-- The submit branch of `show_ranking` (lines 131-140,
`advanceFromRanking` in the specification): reads the rank widget
values, validates them, and on success freezes them into `saved_ranks`,
clears the error and advances to the points page; on validation failure
only sets the error. `int(None)` would raise uncaught, leaving the
state unchanged, hence the guard. -/
def advanceFromRanking (s : Session) : Session :=
  if PARAMETERS.any fun p => (s.rank p).isNone then s
  else
    match validate_ranks (PARAMETERS.map fun p => s.rank p) with
    | some err => { s with error := err }
    | none =>
      { s with
        saved_ranks := some fun p => (s.rank p).getD 0
        error := ""
        page := .points }

/-- The submit branch of `show_points` (lines 162-171,
`advanceFromPoints` in the specification): reads the points widget
values (`.get(key, 0)`, so a missing key reads as 0), validates their
sum, and on success freezes them into `saved_points`, clears the error
and advances to the likert page; on validation failure only sets the
error. -/
def advanceFromPoints (s : Session) : Session :=
  match validate_points (PARAMETERS.map fun p => .num (((s.points p).getD 0 : ℤ) : ℚ)) with
  | some err => { s with error := err }
  | none =>
    { s with
      saved_points := some fun p => (s.points p).getD 0
      error := ""
      page := .likert }

/-- Snapshot rank value for one parameter (lines 196-200): the frozen
`saved_ranks` value when the snapshot is present, else the current rank
widget value. -/
def snapRank (s : Session) (p : String) : Option ℤ :=
  match s.saved_ranks with
  | some m => some (m p)
  | none => s.rank p

/-- Snapshot points value for one parameter (lines 201-204): the frozen
`saved_points` value when the snapshot is present, else the current
points widget value with `.get(key, 0)` default 0. -/
def snapPoints (s : Session) (p : String) : Option ℤ :=
  match s.saved_points with
  | some m => some (m p)
  | none => some ((s.points p).getD 0)

/-- One finalized entry (lines 223-229): `int()` conversion of the three
snapshot values; `none` when a conversion raises (caught at line 230). -/
def composeEntry (s : Session) (p : String) : Option ResultEntry :=
  match snapRank s p, snapPoints s p, s.likert p with
  | some r, some pt, some lk =>
    some { parameter_label := p, rank := r, points := pt, likert := lk }
  | _, _, _ => none

/-- The submit branch of `show_likert` (lines 190-246, `submitFromLikert`
in the specification): builds the per-parameter snapshot, fails with the
incomplete-likert message if any likert value is `None`, fails with the
preparation error if an `int()` conversion raises, then hands the batch
to the store — `storeOk = false` models `save_submission_to_csv`
raising, caught at line 238; on store success records the batch, sets
`submitted`, clears the error and moves to the results page. The
exception texts interpolated into the messages are abbreviated. -/
def submitFromLikert (s : Session) (file : List (List String)) (sid ts : String)
    (storeOk : Bool) : Session × List (List String) :=
  if PARAMETERS.any fun p => (s.likert p).isNone then
    ({ s with error := "Please complete all Likert ratings." }, file)
  else
    match PARAMETERS.mapM (composeEntry s) with
    | none => ({ s with error := "Error preparing results: bad value" }, file)
    | some results =>
      if storeOk then
        ({ s with
            results := some results
            submitted := true
            error := ""
            page := .results },
          save_submission_to_csv file results sid ts)
      else
        ({ s with error := "Failed to save submission: write error" }, file)

/-- `reset_all` (lines 71-88): deletes and re-initializes the widget
entries of every parameter (net effect: defaults rank 1 / points 0 /
likert 4), drops both saved snapshots, clears `submitted` and the error,
and returns to the home page. The `results` entry is not touched. -/
def reset_all (s : Session) : Session :=
  { s with
    rank := fun p => if p ∈ PARAMETERS then some 1 else s.rank p
    points := fun p => if p ∈ PARAMETERS then some 0 else s.points p
    likert := fun p => if p ∈ PARAMETERS then some 4 else s.likert p
    saved_ranks := none
    saved_points := none
    submitted := false
    error := ""
    page := .home }

/-- A session together with the CSV store it writes to. -/
structure World where
  sess : Session
  file : List (List String)

/-- The externally triggered events of one script run: the Start button
(line 116), a widget edit on the page that shows the widget (widgets
constrain their values: selectbox options 1..5, number input 0..100,
slider 1..7), a form submit on the corresponding page, the
return-to-questionnaire button of the unsubmitted results page
(lines 299-300), and `reset_all`. -/
inductive Event where
  | start
  | setRank (p : String) (v : ℤ)
  | setPoints (p : String) (v : ℤ)
  | setLikert (p : String) (v : ℤ)
  | submitRanking
  | submitPoints
  | submitLikert (sid ts : String) (storeOk : Bool)
  | returnToQuestionnaire
  | reset

/-- The router (lines 286-300) as a step function: each event acts only
on the page whose render exposes it, and otherwise leaves the world
unchanged. -/
def stepW (w : World) : Event → World
  | .start =>
    if w.sess.page = .home then
      { w with sess := { w.sess with page := .ranking } }
    else w
  | .setRank p v =>
    if w.sess.page = .ranking ∧ p ∈ PARAMETERS ∧ 1 ≤ v ∧ v ≤ 5 then
      { w with sess := { w.sess with rank := Function.update w.sess.rank p (some v) } }
    else w
  | .setPoints p v =>
    if w.sess.page = .points ∧ p ∈ PARAMETERS ∧ 0 ≤ v ∧ v ≤ 100 then
      { w with sess := { w.sess with points := Function.update w.sess.points p (some v) } }
    else w
  | .setLikert p v =>
    if w.sess.page = .likert ∧ p ∈ PARAMETERS ∧ 1 ≤ v ∧ v ≤ 7 then
      { w with sess := { w.sess with likert := Function.update w.sess.likert p (some v) } }
    else w
  | .submitRanking =>
    if w.sess.page = .ranking then { w with sess := advanceFromRanking w.sess } else w
  | .submitPoints =>
    if w.sess.page = .points then { w with sess := advanceFromPoints w.sess } else w
  | .submitLikert sid ts storeOk =>
    if w.sess.page = .likert then
      let r := submitFromLikert w.sess w.file sid ts storeOk
      { sess := r.1, file := r.2 }
    else w
  | .returnToQuestionnaire =>
    if w.sess.page = .results ∧ w.sess.submitted = false then
      { w with sess := { w.sess with page := .ranking } }
    else w
  | .reset => { w with sess := reset_all w.sess }

/-- Worlds reachable from a fresh session (any pre-existing store
content). -/
inductive Reachable : World → Prop where
  | init (file : List (List String)) : Reachable { sess := initSession, file := file }
  | step (w : World) (e : Event) : Reachable w → Reachable (stepW w e)

/-- Run a list of events in order. -/
def runEvents (w : World) (es : List Event) : World :=
  es.foldl stepW w

/-- The record one appended `ResultEntry` becomes on the admin read
path: every field a string, the numeric fields rendered in decimal. -/
def readRecOf (sid ts : String) (r : ResultEntry) : ReadRecord :=
  { submission_id := .str sid
    timestamp_utc := .str ts
    parameter_label := .str r.parameter_label
    rank := .str (toString r.rank)
    points := .str (toString r.points)
    likert := .str (toString r.likert) }

/-- The entry `show_likert` finalizes for one parameter when every
conversion succeeds: snapshot rank, snapshot points, current likert. -/
def finalizedEntry (s : Session) (p : String) : ResultEntry :=
  { parameter_label := p
    rank := (snapRank s p).getD 0
    points := (snapPoints s p).getD 0
    likert := (s.likert p).getD 0 }

/-- The rational 20.4999 (= 204999/10000), built directly from its
reduced numerator and denominator so proofs can compute with it. -/
def q20_4999 : ℚ := ⟨204999, 10000, by decide, by decide⟩

/-- The rational 20.5001 (= 205001/10000). -/
def q20_5001 : ℚ := ⟨205001, 10000, by decide, by decide⟩

/-- The rational 100.5001 (= 1005001/10000). -/
def q100_5001 : ℚ := ⟨1005001, 10000, by decide, by decide⟩

/-- The numeric contents of a points mapping, defined when every value
is a number; used to state the specification's `round(sum(values))`
acceptance condition. -/
def numsOf (points : List PVal) : Option (List ℚ) :=
  points.mapM fun v => match v with | .num q => some q | .nonnum => none

/-- The points mapping 20, 20, 20, 20, 20.5001 named by the claim. -/
def pts5001 : List PVal :=
  [.num 20, .num 20, .num 20, .num 20, .num q20_5001]

/-- The points mapping 20, 20, 20, 20, 20.4999 named by the claim. -/
def pts4999 : List PVal :=
  [.num 20, .num 20, .num 20, .num 20, .num q20_4999]

/-- A concrete finalized entry used to exhibit the read-back types. -/
def exEntry : ResultEntry :=
  { parameter_label := "Time taken (total procedure)", rank := 1, points := 20, likert := 4 }

/-- The world of a fresh session over an empty store. -/
def wHome : World :=
  { sess := initSession, file := [] }

/-- A straight-through trace: Start, rank the parameters 1..5 in order,
submit, give each parameter 20 points, submit. -/
def traceToLikert : List Event :=
  [.start,
   .setRank (PARAMETERS.getD 0 "") 1,
   .setRank (PARAMETERS.getD 1 "") 2,
   .setRank (PARAMETERS.getD 2 "") 3,
   .setRank (PARAMETERS.getD 3 "") 4,
   .setRank (PARAMETERS.getD 4 "") 5,
   .submitRanking,
   .setPoints (PARAMETERS.getD 0 "") 20,
   .setPoints (PARAMETERS.getD 1 "") 20,
   .setPoints (PARAMETERS.getD 2 "") 20,
   .setPoints (PARAMETERS.getD 3 "") 20,
   .setPoints (PARAMETERS.getD 4 "") 20,
   .submitPoints]

/-- The world reached by `traceToLikert`: likert page, both snapshots
frozen. -/
def wLik : World :=
  runEvents wHome traceToLikert

/-- The world after a successful submission from `wLik`. -/
def wRes : World :=
  stepW wLik (.submitLikert "sid-1" "ts-1" true)

/-- A session on the likert page whose rank snapshot is present but
whose points snapshot is absent (the fallback configuration). -/
def s8 : Session :=
  { initSession with page := .likert, saved_ranks := some fun _ => 2 }

/-- Helper: `mapM` over `Option` succeeds with the mapped list when
every application succeeds. -/
theorem mapM_eq_some_map {α β : Type} (f : α → Option β) (g : α → β) (l : List α)
    (h : ∀ a ∈ l, f a = some (g a)) : l.mapM f = some (l.map g) := by
  induction l with
  | nil => rfl
  | cons a t ih =>
    rw [List.mapM_cons, h a (List.mem_cons_self a t),
      ih fun b hb => h b (List.mem_cons_of_mem a hb)]
    rfl

/-- Helper: `int()` is the identity on an integer-valued input. -/
theorem pyInt_intCast (n : ℤ) : pyInt (.num (n : ℚ)) = some n := by
  simp [pyInt, Int.tdiv_one]

/-- C1 (amended): `advanceFromPoints` accepts a points mapping iff every
value survives `int()` and the truncated values sum to exactly 100 —
`int()` truncates each value toward zero and the sum is never rounded —
and on a sum mismatch the error message reports the truncated sum. -/
theorem validate_points_iff_truncated_sum (pts : List PVal) :
    (validate_points pts = none ↔ (pts.mapM pyInt).map List.sum = some 100) ∧
    (∀ l, pts.mapM pyInt = some l → l.sum ≠ 100 →
      validate_points pts =
        some ("The sum of points must be 100 (now: " ++ toString l.sum ++ ").")) := by
  unfold validate_points
  cases h : pts.mapM pyInt with
  | none => simp
  | some l =>
    refine ⟨?_, ?_⟩
    · by_cases hs : l.sum = 100 <;> simp [hs]
    · intro l' hl hs
      obtain rfl : l = l' := by simpa using hl
      simp [hs]

/-- Witness for C1 (amended): the mapping 20,20,20,20,20.4999 named by
the claim is accepted — each value truncates to 20 and the truncated
sum is 100. -/
theorem validate_points_iff_truncated_sum_witness :
    validate_points pts4999 = none :=
  (validate_points_iff_truncated_sum pts4999).1.mpr (by decide)

/-- C1 counterexample: the claim requires the mapping
20,20,20,20,20.5001 to be rejected, because its values sum to 100.5001
and `round(100.5001) = 101 ≠ 100`; `validate_points` nevertheless
accepts it, since `int()` truncates each value to 20 and the truncated
sum is exactly 100. -/
theorem validate_points_round_claim_false :
    validate_points pts5001 = none ∧
    numsOf pts5001 = some [20, 20, 20, 20, q20_5001] ∧
    pyRound ([(20 : ℚ), 20, 20, 20, q20_5001].sum) = 101 := by
  refine ⟨by decide, by decide, ?_⟩
  have hshape : [(20 : ℚ), 20, 20, 20, q20_5001].sum =
      20 + (20 + (20 + (20 + (q20_5001 + 0)))) := rfl
  have hsum : (20 : ℚ) + (20 + (20 + (20 + (q20_5001 + 0)))) = q100_5001 := by
    have h1 : q20_5001.num = 205001 := rfl
    have h2 : q20_5001.den = 10000 := rfl
    have h3 : q100_5001.num = 1005001 := rfl
    have h4 : q100_5001.den = 10000 := rfl
    rw [← Rat.num_div_den q20_5001, ← Rat.num_div_den q100_5001, h1, h2, h3, h4]
    norm_num
  rw [hshape, hsum]
  decide

/-- C9: the points validator imposes no per-value range: every mapping
of integer values whose sum is 100 is accepted, even when individual
values are negative or above 100; the 0..100 clamp lives only in the
number-input widget (lines 151-158). -/
theorem validate_points_no_range_check (vals : List ℤ) (hsum : vals.sum = 100) :
    validate_points (vals.map fun n : ℤ => PVal.num (n : ℚ)) = none := by
  have hmap : ∀ l : List ℤ, (l.map fun n : ℤ => PVal.num (n : ℚ)).mapM pyInt = some l := by
    intro l
    induction l with
    | nil => rfl
    | cons a t ih =>
      rw [List.map_cons, List.mapM_cons, pyInt_intCast, ih]
      rfl
  unfold validate_points
  rw [hmap vals]
  simp [hsum]

/-- Witness for C9: −50 and 120 lie far outside 0..100, yet the mapping
−50,120,10,10,10 (sum 100) is accepted. -/
theorem validate_points_no_range_check_witness :
    validate_points ([-50, 120, 10, 10, 10].map fun n : ℤ => PVal.num (n : ℚ)) = none :=
  validate_points_no_range_check [-50, 120, 10, 10, 10] (by decide)

/-- C5: `advanceFromRanking` accepts a rank mapping (one value per
parameter) iff the multiset of assigned values is exactly one each of
1..5 — equivalently: no unset value, pairwise distinct values, and the
value set equal to `{1,2,3,4,5}`. -/
theorem validate_ranks_iff_perm (ranks : List (Option ℤ))
    (_hlen : ranks.length = PARAMETERS.length) :
    validate_ranks ranks = none ↔
      ranks.Perm [some 1, some 2, some 3, some 4, some 5] := by
  have htgt : ([some 1, some 2, some 3, some 4, some 5] : List (Option ℤ)).Nodup := by decide
  constructor
  · intro h
    unfold validate_ranks at h
    split_ifs at h with h1 h2 h3
    have hcard : ranks.toFinset.card = ranks.length := not_ne_iff.mp h2
    have hd : ranks.dedup.length = ranks.length := by
      rw [← List.card_toFinset]; exact hcard
    have hnd : ranks.Nodup :=
      List.dedup_eq_self.mp ((List.dedup_sublist ranks).eq_of_length hd)
    refine List.perm_of_nodup_nodup_toFinset_eq hnd htgt ?_
    rw [not_ne_iff.mp h3]
    decide
  · intro hp
    have hnd : ranks.Nodup := hp.nodup_iff.mpr htgt
    have hfs : ranks.toFinset =
        ({some 1, some 2, some 3, some 4, some 5} : Finset (Option ℤ)) := by
      rw [List.toFinset_eq_of_perm _ _ hp]
      decide
    have hcard : ranks.toFinset.card = ranks.length := by
      rw [List.card_toFinset, List.dedup_eq_self.mpr hnd]
    have hnone : (ranks.any fun v => v.isNone) = false := by
      rw [List.any_eq_false]
      intro v hv hisv
      have hvmem : v ∈ ([some 1, some 2, some 3, some 4, some 5] : List (Option ℤ)) :=
        hp.mem_iff.mp hv
      rw [Option.isNone_iff_eq_none.mp hisv] at hvmem
      exact absurd hvmem (by decide)
    have hlen5 : ranks.length = 5 := by
      rw [hp.length_eq]; rfl
    simp [validate_ranks, hnone, hcard, hfs, hlen5]

/-- Witness for C5: the assignment 3,1,4,2,5 has length 5 and the
equivalence evaluates on it. -/
theorem validate_ranks_iff_perm_witness :
    ([some 3, some 1, some 4, some 2, some 5] : List (Option ℤ)).length = PARAMETERS.length ∧
    (validate_ranks [some 3, some 1, some 4, some 2, some 5] = none ↔
      ([some 3, some 1, some 4, some 2, some 5] : List (Option ℤ)).Perm
        [some 1, some 2, some 3, some 4, some 5]) :=
  ⟨by decide, validate_ranks_iff_perm [some 3, some 1, some 4, some 2, some 5] (by decide)⟩

/-- Helper: the store round-trip in general — reading after an append
yields the previously stored records followed by the appended batch,
every field read back as a string. -/
theorem readAll_save (file : List (List String)) (batch : List ResultEntry)
    (sid ts : String) :
    readAll (save_submission_to_csv file batch sid ts) =
      readAll file ++ batch.map (readRecOf sid ts) := by
  cases file with
  | nil =>
    simp [readAll, save_submission_to_csv, readRecOf, List.map_map, Function.comp_def]
  | cons r rows =>
    simp [readAll, save_submission_to_csv, readRecOf, List.map_map, Function.comp_def]

/-- C3 counterexample: append a record whose rank is the integer 1 and
read it back — the rank field comes back as the string "1", not the
integer 1, so the six fields are not reproduced without type-coercion
loss. -/
theorem roundtrip_preserves_types_false :
    exEntry.rank = 1 ∧
    ((readAll (save_submission_to_csv [] [exEntry] "id1" "t1")).map ReadRecord.rank) =
      [PyVal.str "1"] ∧
    PyVal.str "1" ≠ PyVal.int 1 := by
  decide

/-- C3 (amended): the round-trip reproduces each appended record as the
string renderings of its six fields, in order and without loss of
content — but the integer rank, points and likert fields come back as
decimal strings, not as integers. -/
theorem roundtrip_string_renderings (file : List (List String)) (batch : List ResultEntry)
    (sid ts : String) :
    readAll (save_submission_to_csv file batch sid ts) =
      readAll file ++ batch.map (readRecOf sid ts) :=
  readAll_save file batch sid ts

/-- Helper: the points snapshot always yields a value — the widget read
falls back to the default 0. -/
theorem snapPoints_isSome (s : Session) (p : String) : (snapPoints s p).isSome := by
  unfold snapPoints
  cases s.saved_points <;> simp

/-- Helper: with the snapshot rank and the likert value present, the
per-parameter finalization succeeds and produces `finalizedEntry`. -/
theorem composeEntry_eq (s : Session) (p : String)
    (hr : (snapRank s p).isSome) (hl : ((s.likert p).isSome : Bool)) :
    composeEntry s p = some (finalizedEntry s p) := by
  obtain ⟨r, hr'⟩ := Option.isSome_iff_exists.mp hr
  obtain ⟨pt, hp'⟩ := Option.isSome_iff_exists.mp (snapPoints_isSome s p)
  obtain ⟨lk, hl'⟩ := Option.isSome_iff_exists.mp hl
  unfold composeEntry
  rw [hr', hp', hl']
  simp [finalizedEntry, hr', hp', hl']

/-- Helper: with every parameter's snapshot rank and likert value
present, the batch finalization succeeds with one entry per parameter. -/
theorem mapM_composeEntry (s : Session)
    (h : ∀ p ∈ PARAMETERS, (snapRank s p).isSome ∧ ((s.likert p).isSome : Bool)) :
    PARAMETERS.mapM (composeEntry s) = some (PARAMETERS.map (finalizedEntry s)) :=
  mapM_eq_some_map (composeEntry s) (finalizedEntry s) PARAMETERS
    fun p hp => composeEntry_eq s p (h p hp).1 (h p hp).2

/-- Helper: unpacking the boolean precondition of a successful submit. -/
theorem submit_ready_spec (s : Session)
    (h : (PARAMETERS.all fun p => ((snapRank s p).isSome && (s.likert p).isSome)) = true) :
    ∀ p ∈ PARAMETERS, (snapRank s p).isSome ∧ ((s.likert p).isSome : Bool) := by
  intro p hp
  have hb := List.all_eq_true.mp h p hp
  simp only [Bool.and_eq_true] at hb
  exact hb

/-- Helper: under the same precondition no likert value is `None`. -/
theorem likert_any_none_false (s : Session)
    (h : ∀ p ∈ PARAMETERS, ((s.likert p).isSome : Bool)) :
    (PARAMETERS.any fun p => (s.likert p).isNone) = false := by
  rw [List.any_eq_false]
  intro p hp hne
  have hs := h p hp
  rw [Option.isNone_iff_eq_none.mp hne] at hs
  simp at hs

/-- Helper: the shape of a successful submit — records stored on the
session, `submitted` set, error cleared, page moved to results, and the
batch appended to the store. -/
theorem submit_success_shape (s : Session) (file : List (List String)) (sid ts : String)
    (h : (PARAMETERS.all fun p => ((snapRank s p).isSome && (s.likert p).isSome)) = true) :
    submitFromLikert s file sid ts true =
      ({ s with
          results := some (PARAMETERS.map (finalizedEntry s))
          submitted := true
          error := ""
          page := .results },
        save_submission_to_csv file (PARAMETERS.map (finalizedEntry s)) sid ts) := by
  have hready := submit_ready_spec s h
  have hany : (PARAMETERS.any fun p => (s.likert p).isNone) = false :=
    likert_any_none_false s fun p hp => (hready p hp).2
  have hmapM := mapM_composeEntry s hready
  unfold submitFromLikert
  rw [hany, hmapM]
  simp

/-- Helper: the shape of a submit against a failing store — only the
error message changes, nothing is appended. -/
theorem submit_store_failure_shape (s : Session) (file : List (List String)) (sid ts : String)
    (h : (PARAMETERS.all fun p => ((snapRank s p).isSome && (s.likert p).isSome)) = true) :
    submitFromLikert s file sid ts false =
      ({ s with error := "Failed to save submission: write error" }, file) := by
  have hready := submit_ready_spec s h
  have hany : (PARAMETERS.any fun p => (s.likert p).isNone) = false :=
    likert_any_none_false s fun p hp => (hready p hp).2
  have hmapM := mapM_composeEntry s hready
  unfold submitFromLikert
  rw [hany, hmapM]
  simp

/-- C2: when every parameter has a likert value (and the snapshot
conversions succeed, which holds in every initialized session), a
submit against a healthy store produces exactly one finalized record
per parameter, in parameter order covering the parameter list exactly
once, appends them as one batch in which every appended row carries the
single generated submission id and the single timestamp, and marks the
session submitted on the results page; when some likert value is unset
it fails with the incomplete-likert message instead and appends
nothing. -/
theorem submitFromLikert_batch :
    (∀ s : Session, ∀ file : List (List String), ∀ sid ts : String,
      (PARAMETERS.all fun p => ((snapRank s p).isSome && (s.likert p).isSome)) = true →
      ((submitFromLikert s file sid ts true).1.results =
          some (PARAMETERS.map (finalizedEntry s)) ∧
        (submitFromLikert s file sid ts true).1.submitted = true ∧
        (submitFromLikert s file sid ts true).1.page = .results ∧
        (PARAMETERS.map (finalizedEntry s)).length = PARAMETERS.length ∧
        (PARAMETERS.map (finalizedEntry s)).map ResultEntry.parameter_label = PARAMETERS ∧
        readAll (submitFromLikert s file sid ts true).2 =
          readAll file ++ (PARAMETERS.map (finalizedEntry s)).map (readRecOf sid ts) ∧
        ∀ rr ∈ (PARAMETERS.map (finalizedEntry s)).map (readRecOf sid ts),
          rr.submission_id = .str sid ∧ rr.timestamp_utc = .str ts)) ∧
    (∀ s : Session, ∀ file : List (List String), ∀ sid ts : String, ∀ ok : Bool,
      (PARAMETERS.any fun p => (s.likert p).isNone) = true →
      submitFromLikert s file sid ts ok =
        ({ s with error := "Please complete all Likert ratings." }, file)) := by
  constructor
  · intro s file sid ts h
    rw [submit_success_shape s file sid ts h]
    refine ⟨rfl, rfl, rfl, List.length_map _ _, ?_, ?_, ?_⟩
    · rw [List.map_map]
      have : (ResultEntry.parameter_label ∘ finalizedEntry s) = id := by
        funext p
        rfl
      rw [this, List.map_id]
    · exact readAll_save file (PARAMETERS.map (finalizedEntry s)) sid ts
    · intro rr hrr
      obtain ⟨e, _, rfl⟩ := List.mem_map.mp hrr
      exact ⟨rfl, rfl⟩
  · intro s file sid ts ok hany
    unfold submitFromLikert
    rw [hany]
    simp

/-- Witness for C2: the straight-through session `wLik` (likert page,
both snapshots frozen) over an empty store. -/
theorem submitFromLikert_batch_witness :
    (submitFromLikert wLik.sess wLik.file "sid-1" "ts-1" true).1.results =
        some (PARAMETERS.map (finalizedEntry wLik.sess)) ∧
      (submitFromLikert wLik.sess wLik.file "sid-1" "ts-1" true).1.submitted = true ∧
      (submitFromLikert wLik.sess wLik.file "sid-1" "ts-1" true).1.page = .results ∧
      (PARAMETERS.map (finalizedEntry wLik.sess)).length = PARAMETERS.length ∧
      (PARAMETERS.map (finalizedEntry wLik.sess)).map ResultEntry.parameter_label = PARAMETERS ∧
      readAll (submitFromLikert wLik.sess wLik.file "sid-1" "ts-1" true).2 =
        readAll wLik.file ++
          (PARAMETERS.map (finalizedEntry wLik.sess)).map (readRecOf "sid-1" "ts-1") ∧
      ∀ rr ∈ (PARAMETERS.map (finalizedEntry wLik.sess)).map (readRecOf "sid-1" "ts-1"),
        rr.submission_id = .str "sid-1" ∧ rr.timestamp_utc = .str "ts-1" :=
  submitFromLikert_batch.1 wLik.sess wLik.file "sid-1" "ts-1" (by decide)

/-- C4: if the store append raises during submit, the controller only
records the persistence error: the page does not transition, the
`submitted` flag is not set, the three widget stores and both frozen
snapshots are untouched (the participant can retry), and nothing is
appended to the store. -/
theorem submitFromLikert_store_failure (s : Session) (file : List (List String))
    (sid ts : String)
    (h : (PARAMETERS.all fun p => ((snapRank s p).isSome && (s.likert p).isSome)) = true) :
    submitFromLikert s file sid ts false =
      ({ s with error := "Failed to save submission: write error" }, file) ∧
    (submitFromLikert s file sid ts false).1.page = s.page ∧
    (submitFromLikert s file sid ts false).1.submitted = s.submitted ∧
    (submitFromLikert s file sid ts false).1.rank = s.rank ∧
    (submitFromLikert s file sid ts false).1.points = s.points ∧
    (submitFromLikert s file sid ts false).1.likert = s.likert ∧
    (submitFromLikert s file sid ts false).1.saved_ranks = s.saved_ranks ∧
    (submitFromLikert s file sid ts false).1.saved_points = s.saved_points ∧
    (submitFromLikert s file sid ts false).2 = file := by
  have hsh := submit_store_failure_shape s file sid ts h
  rw [hsh]
  exact ⟨rfl, rfl, rfl, rfl, rfl, rfl, rfl, rfl, rfl⟩

/-- Witness for C4: a failing store at the straight-through session
`wLik`: the error is reported and the session still shows the likert
page, unsubmitted. -/
theorem submitFromLikert_store_failure_witness :
    submitFromLikert wLik.sess wLik.file "sid-1" "ts-1" false =
      ({ wLik.sess with error := "Failed to save submission: write error" }, wLik.file) ∧
    (submitFromLikert wLik.sess wLik.file "sid-1" "ts-1" false).1.page = wLik.sess.page ∧
    (submitFromLikert wLik.sess wLik.file "sid-1" "ts-1" false).1.submitted =
      wLik.sess.submitted ∧
    (submitFromLikert wLik.sess wLik.file "sid-1" "ts-1" false).1.rank = wLik.sess.rank ∧
    (submitFromLikert wLik.sess wLik.file "sid-1" "ts-1" false).1.points = wLik.sess.points ∧
    (submitFromLikert wLik.sess wLik.file "sid-1" "ts-1" false).1.likert = wLik.sess.likert ∧
    (submitFromLikert wLik.sess wLik.file "sid-1" "ts-1" false).1.saved_ranks =
      wLik.sess.saved_ranks ∧
    (submitFromLikert wLik.sess wLik.file "sid-1" "ts-1" false).1.saved_points =
      wLik.sess.saved_points ∧
    (submitFromLikert wLik.sess wLik.file "sid-1" "ts-1" false).2 = wLik.file :=
  submitFromLikert_store_failure wLik.sess wLik.file "sid-1" "ts-1" (by decide)

/-- C8: the finalized values prefer the frozen snapshots — the snapshot
rank/points value is used whenever the snapshot is present, and the
current widget value is used only when it is absent — and on a
successful submit the stored batch is exactly these per-parameter
snapshot entries. -/
theorem snapshot_priority :
    (∀ s : Session, ∀ p : String, ∀ m : String → ℤ,
      s.saved_ranks = some m → snapRank s p = some (m p)) ∧
    (∀ s : Session, ∀ p : String,
      s.saved_ranks = none → snapRank s p = s.rank p) ∧
    (∀ s : Session, ∀ p : String, ∀ m : String → ℤ,
      s.saved_points = some m → snapPoints s p = some (m p)) ∧
    (∀ s : Session, ∀ p : String,
      s.saved_points = none → snapPoints s p = some ((s.points p).getD 0)) ∧
    (∀ s : Session, ∀ file : List (List String), ∀ sid ts : String,
      (PARAMETERS.all fun p => ((snapRank s p).isSome && (s.likert p).isSome)) = true →
      (submitFromLikert s file sid ts true).1.results =
        some (PARAMETERS.map (finalizedEntry s))) := by
  refine ⟨?_, ?_, ?_, ?_, ?_⟩
  · intro s p m hm
    unfold snapRank
    rw [hm]
  · intro s p hm
    unfold snapRank
    rw [hm]
  · intro s p m hm
    unfold snapPoints
    rw [hm]
  · intro s p hm
    unfold snapPoints
    rw [hm]
  · intro s file sid ts h
    rw [submit_success_shape s file sid ts h]

/-- Witness for C8: the session `s8` has a frozen rank snapshot
(constant 2) but no points snapshot: its finalized rank comes from the
snapshot, its finalized points from the widget default. -/
theorem snapshot_priority_witness :
    snapRank s8 "Time taken (total procedure)" = some 2 ∧
    snapPoints s8 "Time taken (total procedure)" =
      some ((s8.points "Time taken (total procedure)").getD 0) ∧
    (submitFromLikert s8 [] "sid-8" "ts-8" true).1.results =
      some (PARAMETERS.map (finalizedEntry s8)) := by
  refine ⟨?_, ?_, ?_⟩
  · exact snapshot_priority.1 s8 "Time taken (total procedure)" (fun _ => 2) rfl
  · exact snapshot_priority.2.2.2.1 s8 "Time taken (total procedure)" rfl
  · exact snapshot_priority.2.2.2.2 s8 [] "sid-8" "ts-8" (by decide)

/-- Helper: every ranking validation message is nonempty. -/
theorem validate_ranks_msg_ne (ranks : List (Option ℤ)) (msg : String)
    (h : validate_ranks ranks = some msg) : msg ≠ "" := by
  unfold validate_ranks at h
  split_ifs at h <;> simp only [Option.some.injEq] at h <;> subst h <;> decide

/-- Helper: every points validation message is nonempty. -/
theorem validate_points_msg_ne (pts : List PVal) (msg : String)
    (h : validate_points pts = some msg) : msg ≠ "" := by
  unfold validate_points at h
  cases hm : pts.mapM pyInt with
  | none =>
    rw [hm] at h
    simp only [Option.some.injEq] at h
    subst h
    decide
  | some l =>
    rw [hm] at h
    dsimp only at h
    by_cases hs : l.sum = 100
    · simp [hs] at h
    · rw [if_pos hs] at h
      simp only [Option.some.injEq] at h
      subst h
      intro hemp
      have hl := congrArg String.length hemp
      rw [String.length_append, String.length_append] at hl
      have h37 : ("The sum of points must be 100 (now: " : String).length = 36 := by decide
      have h2 : (")." : String).length = 2 := by decide
      have h0 : ("" : String).length = 0 := by decide
      rw [h37, h2, h0] at hl
      omega

/-- C7: every validation failure of the three submit handlers is a
self-loop: the only session change is the (nonempty) error message —
the page, the three widget stores, both snapshots, the `submitted` flag
and the store content are untouched. -/
theorem validation_failure_self_loop :
    (∀ s : Session, ∀ msg : String,
      (PARAMETERS.any fun p => (s.rank p).isNone) = false →
      validate_ranks (PARAMETERS.map fun p => s.rank p) = some msg →
      advanceFromRanking s = { s with error := msg } ∧ msg ≠ "") ∧
    (∀ s : Session, ∀ msg : String,
      validate_points (PARAMETERS.map fun p => .num (((s.points p).getD 0 : ℤ) : ℚ)) =
        some msg →
      advanceFromPoints s = { s with error := msg } ∧ msg ≠ "") ∧
    (∀ s : Session, ∀ file : List (List String), ∀ sid ts : String, ∀ ok : Bool,
      (PARAMETERS.any fun p => (s.likert p).isNone) = true →
      submitFromLikert s file sid ts ok =
        ({ s with error := "Please complete all Likert ratings." }, file) ∧
      ("Please complete all Likert ratings." : String) ≠ "") := by
  refine ⟨?_, ?_, ?_⟩
  · intro s msg hg hv
    refine ⟨?_, validate_ranks_msg_ne _ _ hv⟩
    unfold advanceFromRanking
    rw [hg, hv]
    simp
  · intro s msg hv
    refine ⟨?_, validate_points_msg_ne _ _ hv⟩
    unfold advanceFromPoints
    rw [hv]
  · intro s file sid ts ok hany
    refine ⟨?_, by decide⟩
    unfold submitFromLikert
    rw [hany]
    simp

/-- Witness for C7: a fresh session that presses Start and submits the
all-1 default ranking fails the uniqueness check and only gains that
error message. -/
theorem validation_failure_self_loop_witness :
    advanceFromRanking (stepW wHome .start).sess =
      { (stepW wHome .start).sess with
          error := "Rankings must be unique: assign 1..5 without repetitions." } ∧
    ("Rankings must be unique: assign 1..5 without repetitions." : String) ≠ "" :=
  validation_failure_self_loop.1 (stepW wHome .start).sess
    "Rankings must be unique: assign 1..5 without repetitions." (by decide) (by decide)

/-- Helper: the ranking submit handler either leaves the session
unchanged, only sets an error, or freezes the ranks and moves to the
points page. -/
theorem advanceFromRanking_cases (s : Session) :
    advanceFromRanking s = s ∨
    (∃ msg, advanceFromRanking s = { s with error := msg }) ∨
    advanceFromRanking s =
      { s with
          saved_ranks := some fun p => (s.rank p).getD 0
          error := ""
          page := .points } := by
  unfold advanceFromRanking
  split_ifs with h
  · exact Or.inl rfl
  · cases hv : validate_ranks (PARAMETERS.map fun p => s.rank p) with
    | some msg => exact Or.inr (Or.inl ⟨msg, rfl⟩)
    | none => exact Or.inr (Or.inr rfl)

/-- Helper: the points submit handler either only sets an error, or
freezes the points and moves to the likert page. -/
theorem advanceFromPoints_cases (s : Session) :
    (∃ msg, advanceFromPoints s = { s with error := msg }) ∨
    advanceFromPoints s =
      { s with
          saved_points := some fun p => (s.points p).getD 0
          error := ""
          page := .likert } := by
  unfold advanceFromPoints
  cases hv : validate_points (PARAMETERS.map fun p => .num (((s.points p).getD 0 : ℤ) : ℚ)) with
  | some msg => exact Or.inl ⟨msg, rfl⟩
  | none => exact Or.inr rfl

/-- Helper: the likert submit handler either only sets an error and
leaves the store alone, or finalizes: stores the batch, sets
`submitted`, clears the error, moves to results and appends. -/
theorem submitFromLikert_cases (s : Session) (file : List (List String)) (sid ts : String)
    (ok : Bool) :
    (∃ msg, submitFromLikert s file sid ts ok = ({ s with error := msg }, file)) ∨
    (∃ rs, submitFromLikert s file sid ts ok =
      ({ s with results := some rs, submitted := true, error := "", page := .results },
        save_submission_to_csv file rs sid ts)) := by
  unfold submitFromLikert
  by_cases h : (PARAMETERS.any fun p => (s.likert p).isNone) = true
  · rw [if_pos h]
    exact Or.inl ⟨_, rfl⟩
  · rw [if_neg h]
    cases hm : PARAMETERS.mapM (composeEntry s) with
    | none => exact Or.inl ⟨_, rfl⟩
    | some rs =>
      cases ok with
      | true => exact Or.inr ⟨rs, rfl⟩
      | false => exact Or.inl ⟨_, rfl⟩

/-- Helper: in every reachable world, being on the results page implies
the `submitted` flag — the unsubmitted-results escape of the router is
dead for sessions that start at home. -/
theorem results_implies_submitted (w : World) (hw : Reachable w) :
    w.sess.page = .results → w.sess.submitted = true := by
  induction hw with
  | init file =>
    intro h
    exact Page.noConfusion h
  | step w e hw ih =>
    cases e with
    | start =>
      simp only [stepW]
      split_ifs with h
      · intro hp
        exact hp.elim
      · exact ih
    | setRank q v =>
      simp only [stepW]
      split_ifs with h
      · exact ih
      · exact ih
    | setPoints q v =>
      simp only [stepW]
      split_ifs with h
      · exact ih
      · exact ih
    | setLikert q v =>
      simp only [stepW]
      split_ifs with h
      · exact ih
      · exact ih
    | submitRanking =>
      simp only [stepW]
      split_ifs with h
      · rcases advanceFromRanking_cases w.sess with he | ⟨msg, he⟩ | he <;> rw [he]
        · exact ih
        · exact ih
        · intro hp
          exact Page.noConfusion hp
      · exact ih
    | submitPoints =>
      simp only [stepW]
      split_ifs with h
      · rcases advanceFromPoints_cases w.sess with ⟨msg, he⟩ | he <;> rw [he]
        · exact ih
        · intro hp
          exact Page.noConfusion hp
      · exact ih
    | submitLikert sid ts ok =>
      simp only [stepW]
      split_ifs with h
      · rcases submitFromLikert_cases w.sess w.file sid ts ok with ⟨msg, he⟩ | ⟨rs, he⟩ <;>
          rw [he]
        · exact ih
        · intro _
          rfl
      · exact ih
    | returnToQuestionnaire =>
      simp only [stepW]
      split_ifs with h
      · intro hp
        exact hp.elim
      · exact ih
    | reset =>
      simp only [stepW]
      intro hp
      exact Page.noConfusion hp

/-- Helper: in every reachable world every parameter's likert value is
a set integer between 1 and 7. -/
theorem likert_inv (w : World) (hw : Reachable w) :
    ∀ p ∈ PARAMETERS, ∃ n, w.sess.likert p = some n ∧ 1 ≤ n ∧ n ≤ 7 := by
  induction hw with
  | init file =>
    intro p hp
    exact ⟨4, by simp [initSession, hp], by decide, by decide⟩
  | step w e hw ih =>
    cases e with
    | start =>
      simp only [stepW]
      split_ifs with h
      · exact ih
      · exact ih
    | setRank q v =>
      simp only [stepW]
      split_ifs with h
      · exact ih
      · exact ih
    | setPoints q v =>
      simp only [stepW]
      split_ifs with h
      · exact ih
      · exact ih
    | setLikert q v =>
      simp only [stepW]
      split_ifs with h
      · intro p hp
        by_cases hpq : p = q
        · subst hpq
          exact ⟨v, by simp [Function.update_apply], h.2.2.1, h.2.2.2⟩
        · obtain ⟨n, hn, h1, h7⟩ := ih p hp
          exact ⟨n, by simpa [Function.update_apply, hpq] using hn, h1, h7⟩
      · exact ih
    | submitRanking =>
      simp only [stepW]
      split_ifs with h
      · rcases advanceFromRanking_cases w.sess with he | ⟨msg, he⟩ | he <;> rw [he] <;>
          exact ih
      · exact ih
    | submitPoints =>
      simp only [stepW]
      split_ifs with h
      · rcases advanceFromPoints_cases w.sess with ⟨msg, he⟩ | he <;> rw [he] <;> exact ih
      · exact ih
    | submitLikert sid ts ok =>
      simp only [stepW]
      split_ifs with h
      · rcases submitFromLikert_cases w.sess w.file sid ts ok with ⟨msg, he⟩ | ⟨rs, he⟩ <;>
          rw [he] <;> exact ih
      · exact ih
    | returnToQuestionnaire =>
      simp only [stepW]
      split_ifs with h
      · exact ih
      · exact ih
    | reset =>
      simp only [stepW]
      intro p hp
      exact ⟨4, by simp [reset_all, hp], by decide, by decide⟩

/-- Helper: running a list of events preserves reachability. -/
theorem reachable_runEvents (w : World) (hw : Reachable w) (es : List Event) :
    Reachable (runEvents w es) := by
  induction es generalizing w with
  | nil => exact hw
  | cons e t ih => exact ih (stepW w e) (Reachable.step w e hw)

/-- C6: for every reachable session sitting on the results page, every
event other than reset leaves it on the results page, and reset returns
it to home. -/
theorem results_terminal (w : World) (hw : Reachable w) (hp : w.sess.page = .results) :
    (∀ e, e ≠ Event.reset → (stepW w e).sess.page = .results) ∧
    (stepW w Event.reset).sess.page = .home := by
  have hsub : w.sess.submitted = true := results_implies_submitted w hw hp
  constructor
  · intro e he
    cases e with
    | start => simp [stepW, hp]
    | setRank q v => simp [stepW, hp]
    | setPoints q v => simp [stepW, hp]
    | setLikert q v => simp [stepW, hp]
    | submitRanking => simp [stepW, hp]
    | submitPoints => simp [stepW, hp]
    | submitLikert sid ts ok => simp [stepW, hp]
    | returnToQuestionnaire => simp [stepW, hp, hsub]
    | reset => exact absurd rfl he
  · simp [stepW, reset_all]

/-- Witness for C6: the world `wRes` reached by a full pass through the
questionnaire sits on the results page. -/
theorem results_terminal_witness :
    (∀ e, e ≠ Event.reset → (stepW wRes e).sess.page = .results) ∧
    (stepW wRes Event.reset).sess.page = .home :=
  results_terminal wRes
    (Reachable.step wLik (.submitLikert "sid-1" "ts-1" true)
      (reachable_runEvents wHome (Reachable.init []) traceToLikert))
    (by decide)

/-- C10: in every reachable session every parameter's likert value is a
set integer in 1..7 (4 at initialization, and the slider stores only
1..7), so the incomplete-likert guard of `submitFromLikert` evaluates
to false — the `IncompleteLikert` branch is unreachable after
initialization. -/
theorem likert_always_set (w : World) (hw : Reachable w) :
    (∀ p ∈ PARAMETERS, ∃ n, w.sess.likert p = some n ∧ 1 ≤ n ∧ n ≤ 7) ∧
    (PARAMETERS.any fun p => (w.sess.likert p).isNone) = false := by
  have h := likert_inv w hw
  refine ⟨h, ?_⟩
  rw [List.any_eq_false]
  intro p hp hne
  obtain ⟨n, hn, _, _⟩ := h p hp
  rw [Option.isNone_iff_eq_none.mp hne] at hn
  exact Option.noConfusion hn

/-- Witness for C10: the freshly initialized world. -/
theorem likert_always_set_witness :
    (∀ p ∈ PARAMETERS, ∃ n, wHome.sess.likert p = some n ∧ 1 ≤ n ∧ n ≤ 7) ∧
    (PARAMETERS.any fun p => (wHome.sess.likert p).isNone) = false :=
  likert_always_set wHome (Reachable.init [])

end FRQ
